import Mathlib

/-!
# Verification of the LLM-Governance-Core orchestration layer

Shallow embedding of the repository's orchestration core (`src/server.ts`,
`GovernanceCore`) and of its boundary request handlers
(`src/handlers/index.ts`).

Each collaborator (adapter) call is modelled by its outcome, supplied as part
of an `AdapterEnv` environment: a JavaScript promise rejection (a thrown
exception inside the adapter) is `Except.error msg`, a resolved call is
`Except.ok r` where `r` is the uniform `AdapterResponse` envelope
(`success` / optional `data` / optional `error`).  Each orchestration method
is then a pure Lean function of the environment and its argument; methods
that publish or track events additionally return the list of events handed
to the dashboard / analytics collaborators, so that "the collaborator was
(not) called" is observable.  JavaScript numbers are modelled by `ℚ`,
`Date.now()` by a `Nat` clock in the environment, and ISO timestamps by
`String`.
-/

deriving instance DecidableEq for Except

/-- Uniform adapter result envelope (`AdapterResponse<T>` in
`src/adapters`): `success` flag, optional payload, optional error string. -/
structure AdapterResponse (α : Type) where
  success : Bool
  data : Option α
  error : Option String
  deriving Repr, DecidableEq

/-- Outcome of one collaborator call: `Except.error e` models a rejected
promise (thrown exception with message `e`), `Except.ok r` a resolved
envelope. -/
abbrev CallResult (α : Type) := Except String (AdapterResponse α)

/-- JavaScript `x || default` on an optional error string: `undefined` and
the empty string are falsy, so both fall back to the default. -/
def jsOrDefault (o : Option String) (d : String) : String :=
  match o with
  | some s => if s = "" then d else s
  | none => d

/-- Payload of `policyEngine.evaluatePolicy` (`PolicyEvaluationResult` of
`src/adapters`; the optional `conditions` field is never read by the core). -/
structure PolicyData where
  allowed : Bool
  reasons : List String
  appliedPolicies : List String
  deriving Repr, DecidableEq

/-- Payload of `costOps.getCostMetrics` (`CostMetrics`); the core reads only
`totalCost`, the `period`/`breakdown` fields are never consumed. -/
structure CostMetricsData where
  totalCost : ℚ
  currency : String
  deriving Repr, DecidableEq

/-- Payload of `costOps.getForecast` (`CostForecast`); the core reads only
`projectedCost`. -/
structure CostForecastData where
  projectedCost : ℚ
  confidence : ℚ
  deriving Repr, DecidableEq

/-- One entry of `ValidationResult.errors` from the schema registry. -/
structure ValidationErrorItem where
  path : String
  message : String
  deriving Repr, DecidableEq

/-- Payload of `schemaRegistry.validate` (`ValidationResult`). -/
structure ValidationResult where
  valid : Bool
  errors : List ValidationErrorItem
  deriving Repr, DecidableEq

/-- Projection of a `configManager.getConfig` payload's `value` field: the
core reads it only through the duck-typed casts
`(value as { roles?: string[] })?.roles` and
`(value as { permissions?: string[] })?.permissions`, modelled as the two
optional field projections. -/
structure ConfigData where
  rolesField : Option (List String)
  permissionsField : Option (List String)
  deriving Repr, DecidableEq

/-- `PolicyEvaluationResult` of `src/types.ts`: the normalized projection of
the policy payload built in step 1 of `evaluateGovernance`. -/
structure PolicyEvaluationResult where
  allowed : Bool
  policies : List String
  reasons : List String
  deriving Repr, DecidableEq

/-- `FinOpsSummary` of `src/types.ts`. -/
structure FinOpsSummary where
  resourceId : String
  currentCost : ℚ
  forecast : ℚ
  budgetStatus : String
  deriving Repr, DecidableEq

/-- The `metadata` record attached to the audit signal constructed inside
`evaluateGovernance` (requestId, applied policies, reasons). -/
structure AuditMetadata where
  requestId : String
  policies : List String
  reasons : List String
  deriving Repr, DecidableEq

/-- `AuditSignal` of `src/types.ts`; `timestamp` is the ISO-8601 string. -/
structure AuditSignal where
  timestamp : String
  action : String
  principal : String
  resource : String
  outcome : String
  metadata : Option AuditMetadata
  deriving Repr, DecidableEq

/-- `GovernanceDecision` of `src/types.ts`; `costImpact` is optional because
cost retrieval is best-effort. -/
structure GovernanceDecision where
  requestId : String
  allowed : Bool
  policyResults : PolicyEvaluationResult
  costImpact : Option FinOpsSummary
  auditId : String
  deriving Repr, DecidableEq

/-- `RBACContext` of `src/types.ts`; `resolveRBAC` never sets `scope`. -/
structure RBACContext where
  principal : String
  roles : List String
  permissions : List String
  scope : Option String
  deriving Repr, DecidableEq

/-- `GovernanceRequest` of `src/types.ts`; the optional `context` mapping is
passed through to the policy collaborator unread, so it is left abstract
here (its boundary validation is modelled separately with `JsValue`). -/
structure GovernanceRequest where
  requestId : String
  resourceId : String
  action : String
  principal : String
  deriving Repr, DecidableEq

/-- `GovernanceEvent` handed to `dashboard.publishEvent`; `timestamp` keeps
the signal's timestamp string (`new Date(signal.timestamp)` in the code). -/
structure GovernanceEvent where
  eventType : String
  severity : String
  timestamp : String
  details : AuditSignal
  deriving Repr, DecidableEq

/-- The analytics event built in step 3 of `evaluateGovernance`; the
`properties` record is flattened into its five concrete entries. -/
structure AnalyticsEvent where
  eventName : String
  requestId : String
  resourceId : String
  action : String
  principal : String
  allowed : Bool
  userId : String
  deriving Repr, DecidableEq

/-- Environment of one orchestration run: the outcome each collaborator call
would produce, plus the wall clock.  `getConfig` is keyed by the
configuration key string since `resolveRBAC` issues several lookups. -/
structure AdapterEnv where
  policyResp : CallResult PolicyData
  metricsResp : CallResult CostMetricsData
  forecastResp : CallResult CostForecastData
  trackResp : CallResult Unit
  validateResp : CallResult ValidationResult
  publishResp : CallResult Unit
  getConfig : String → CallResult ConfigData
  nowMs : Nat
  nowIso : String

/-- The budget-status rule of `getFinOpsSummary` (`src/server.ts` lines
224-227): first match wins, thresholds 1.5 and 1.2 times current cost. -/
def budgetStatusOf (currentCost forecast : ℚ) : String :=
  if forecast > currentCost * (3 / 2) then "exceeded"
  else if forecast > currentCost * (6 / 5) then "warning"
  else "within"

/-- `GovernanceCore.getFinOpsSummary`: issues the cost-metrics and forecast
queries (both must succeed with a payload), computes `budgetStatus`
locally, and wraps any failure as `"FinOps summary failed: <cause>"`. -/
def getFinOpsSummary (env : AdapterEnv) (resourceId : String) :
    Except String FinOpsSummary :=
  match env.metricsResp with
  | .error e => .error ("FinOps summary failed: " ++ e)
  | .ok mr =>
    match env.forecastResp with
    | .error e => .error ("FinOps summary failed: " ++ e)
    | .ok fr =>
      match mr.data, mr.success with
      | none, _ =>
        .error ("FinOps summary failed: " ++
          jsOrDefault mr.error "Failed to get cost metrics")
      | some _, false =>
        .error ("FinOps summary failed: " ++
          jsOrDefault mr.error "Failed to get cost metrics")
      | some md, true =>
        match fr.data, fr.success with
        | none, _ =>
          .error ("FinOps summary failed: " ++
            jsOrDefault fr.error "Failed to get cost forecast")
        | some _, false =>
          .error ("FinOps summary failed: " ++
            jsOrDefault fr.error "Failed to get cost forecast")
        | some fd, true =>
          .ok { resourceId := resourceId
                currentCost := md.totalCost
                forecast := fd.projectedCost
                budgetStatus := budgetStatusOf md.totalCost fd.projectedCost }

/-- `GovernanceCore.emitAuditSignal`: validates the signal against schema
`"audit.signal.v1"`, then publishes a `GovernanceEvent` to the dashboard.
Returns the outcome together with the list of events actually handed to
`dashboard.publishEvent` during the call (a call that throws was still
made).  The check `!validationResponse.success || !validationResponse.data?.valid`
fails validation when the envelope reports failure, carries no payload, or
carries a payload with `valid: false`. -/
def emitAuditSignal (env : AdapterEnv) (signal : AuditSignal) :
    Except String Unit × List GovernanceEvent :=
  match env.validateResp with
  | .error e => (.error ("Audit signal emission failed: " ++ e), [])
  | .ok vr =>
    if vr.success = false ∨ (vr.data.map ValidationResult.valid).getD false = false then
      (.error ("Audit signal emission failed: Audit signal validation failed: " ++
        String.intercalate ", "
          (((vr.data.map ValidationResult.errors).getD []).map
            ValidationErrorItem.message)), [])
    else
      let ev : GovernanceEvent :=
        { eventType := "audit.signal"
          severity := if signal.outcome = "denied" then "warning" else "info"
          timestamp := signal.timestamp
          details := signal }
      match env.publishResp with
      | .error e => (.error ("Audit signal emission failed: " ++ e), [ev])
      | .ok _ => (.ok (), [ev])

/-- Result of one `evaluateGovernance` run: the decision or wrapped error,
the dashboard events published, and the analytics events tracked. -/
structure EvalOutcome where
  result : Except String GovernanceDecision
  published : List GovernanceEvent
  tracked : List AnalyticsEvent
  deriving Repr

/-- `GovernanceCore.evaluateGovernance`: policy evaluation (fatal on
envelope failure or missing payload), best-effort cost summary (error
swallowed, `costImpact` left absent), analytics tracking (awaited, envelope
not inspected), audit-id generation, audit emission (fatal), and the final
decision.  Every fatal error is wrapped as
`"Governance evaluation failed: <cause>"` by the outer catch. -/
def evaluateGovernance (env : AdapterEnv) (request : GovernanceRequest) :
    EvalOutcome :=
  match env.policyResp with
  | .error e => ⟨.error ("Governance evaluation failed: " ++ e), [], []⟩
  | .ok pr =>
    match pr.data, pr.success with
    | none, _ =>
      ⟨.error ("Governance evaluation failed: " ++
        jsOrDefault pr.error "Policy evaluation failed"), [], []⟩
    | some _, false =>
      ⟨.error ("Governance evaluation failed: " ++
        jsOrDefault pr.error "Policy evaluation failed"), [], []⟩
    | some pd, true =>
      let policyResults : PolicyEvaluationResult :=
        { allowed := pd.allowed
          policies := pd.appliedPolicies
          reasons := pd.reasons }
      -- cost data is supplementary: a failing summary is swallowed
      let costImpact : Option FinOpsSummary :=
        match getFinOpsSummary env request.resourceId with
        | .ok s => some s
        | .error _ => none
      let analyticsEvent : AnalyticsEvent :=
        { eventName := "governance.evaluation"
          requestId := request.requestId
          resourceId := request.resourceId
          action := request.action
          principal := request.principal
          allowed := policyResults.allowed
          userId := request.principal }
      match env.trackResp with
      | .error e =>
        ⟨.error ("Governance evaluation failed: " ++ e), [], [analyticsEvent]⟩
      | .ok _ =>
        let auditId :=
          "audit-" ++ request.requestId ++ "-" ++ toString env.nowMs
        let auditSignal : AuditSignal :=
          { timestamp := env.nowIso
            action := request.action
            principal := request.principal
            resource := request.resourceId
            outcome := if policyResults.allowed then "allowed" else "denied"
            metadata := some
              { requestId := request.requestId
                policies := policyResults.policies
                reasons := policyResults.reasons } }
        match emitAuditSignal env auditSignal with
        | (.error e, pubs) =>
          ⟨.error ("Governance evaluation failed: " ++ e), pubs,
            [analyticsEvent]⟩
        | (.ok _, pubs) =>
          ⟨.ok { requestId := request.requestId
                 allowed := policyResults.allowed
                 policyResults := policyResults
                 costImpact := costImpact
                 auditId := auditId }, pubs, [analyticsEvent]⟩

/-- `Array.from(new Set(xs))`: deduplication keeping first occurrences. -/
def jsSetDedup (xs : List String) : List String :=
  xs.foldl (fun acc x => if x ∈ acc then acc else acc ++ [x]) []

/-- The permission list one role contributes in `resolveRBAC`:
`permConfig.success && permConfig.data ? (value?.permissions || []) : []`. -/
def rolePermissions (env : AdapterEnv) (role : String) :
    Except String (List String) :=
  match env.getConfig ("rbac.permissions." ++ role) with
  | .error e => .error e
  | .ok pc =>
    match pc.data, pc.success with
    | some d, true => .ok (d.permissionsField.getD [])
    | _, _ => .ok []

/-- `Promise.all` over the per-role permission lookups: a thrown lookup
rejects the batch with its message, otherwise the per-role lists are
collected in role order. -/
def collectPermissionSets (env : AdapterEnv) :
    List String → Except String (List (List String))
  | [] => .ok []
  | role :: rest =>
    match rolePermissions env role with
    | .error e => .error e
    | .ok perms =>
      match collectPermissionSets env rest with
      | .error e => .error e
      | .ok tail => .ok (perms :: tail)

/-- `GovernanceCore.resolveRBAC`: looks up `rbac.roles.<principal>`
(envelope failure or missing payload yields the empty context, not an
error), extracts `roles`, looks up `rbac.permissions.<role>` per role
(envelope failure degrades to `[]`), and returns the deduplicated union.
Thrown exceptions wrap as `"RBAC resolution failed: <cause>"`. -/
def resolveRBAC (env : AdapterEnv) (principal : String) :
    Except String RBACContext :=
  match env.getConfig ("rbac.roles." ++ principal) with
  | .error e => .error ("RBAC resolution failed: " ++ e)
  | .ok rc =>
    match rc.data, rc.success with
    | some d, true =>
      let roles := d.rolesField.getD []
      match collectPermissionSets env roles with
      | .error e => .error ("RBAC resolution failed: " ++ e)
      | .ok permissionSets =>
        .ok { principal := principal
              roles := roles
              permissions := jsSetDedup permissionSets.flatten
              scope := none }
    | _, _ =>
      .ok { principal := principal, roles := [], permissions := [],
            scope := none }

/-- A JavaScript value as seen by the boundary validators of
`src/handlers/index.ts`; `object` and `array` are bare markers since the
validators only inspect their type, never their contents. -/
inductive JsValue where
  | undef
  | nullv
  | boolean (b : Bool)
  | number (q : ℚ)
  | string (s : String)
  | object
  | array
  deriving Repr, DecidableEq

/-- JavaScript truthiness of a `JsValue` (`NaN` is not modelled). -/
def JsValue.truthy : JsValue → Bool
  | .undef => false
  | .nullv => false
  | .boolean b => b
  | .number q => decide (q ≠ 0)
  | .string s => decide (s ≠ "")
  | .object => true
  | .array => true

/-- Model of JavaScript `String.prototype.trim` (restricted to the
whitespace characters `Char.isWhitespace` recognises): drop whitespace from
both ends of the character list. -/
def jsTrim (s : String) : String :=
  ⟨((s.data.dropWhile Char.isWhitespace).reverse.dropWhile
      Char.isWhitespace).reverse⟩

/-- The three-clause required-string check used by every field validator:
`!v || typeof v !== 'string' || v.trim() === ''`, true when validation
FAILS. -/
def failsRequiredString : JsValue → Bool
  | .string s => decide (s = "") || decide (jsTrim s = "")
  | _ => true

/-- The optional-mapping check for `context` / `metadata`:
`v !== undefined && (typeof v !== 'object' || v === null || Array.isArray(v))`,
true when validation FAILS (only `undefined` or a plain object pass). -/
def failsOptionalObject : JsValue → Bool
  | .undef => false
  | .object => false
  | _ => true

/-- Boundary shape of a governance request before validation: each field is
an arbitrary JavaScript value (the `!request || typeof request !== 'object'`
guard is modelled by this record type itself). -/
structure GovRequestInput where
  requestId : JsValue
  resourceId : JsValue
  action : JsValue
  principal : JsValue
  context : JsValue
  deriving Repr, DecidableEq

/-- Boundary shape of an audit signal before validation. -/
structure AuditSignalInput where
  timestamp : JsValue
  action : JsValue
  principal : JsValue
  resource : JsValue
  outcome : JsValue
  metadata : JsValue
  deriving Repr, DecidableEq

/-- `validateGovernanceRequest` of `src/handlers/index.ts`: field checks in
source order, each throwing an error naming the offending field. -/
def validateGovernanceRequest (req : GovRequestInput) : Except String Unit :=
  if failsRequiredString req.requestId then
    .error "Invalid request: requestId must be a non-empty string"
  else if failsRequiredString req.resourceId then
    .error "Invalid request: resourceId must be a non-empty string"
  else if failsRequiredString req.action then
    .error "Invalid request: action must be a non-empty string"
  else if failsRequiredString req.principal then
    .error "Invalid request: principal must be a non-empty string"
  else if failsOptionalObject req.context then
    .error "Invalid request: context must be an object if provided"
  else .ok ()

/-- `validatePrincipal`: `typeof principal !== 'string' || trim === ''`. -/
def validatePrincipal (principal : JsValue) : Except String Unit :=
  match principal with
  | .string s =>
    if jsTrim s = "" then
      .error "Invalid principal: must be a non-empty string"
    else .ok ()
  | _ => .error "Invalid principal: must be a non-empty string"

/-- `validateResourceId`: `typeof resourceId !== 'string' || trim === ''`. -/
def validateResourceId (resourceId : JsValue) : Except String Unit :=
  match resourceId with
  | .string s =>
    if jsTrim s = "" then
      .error "Invalid resourceId: must be a non-empty string"
    else .ok ()
  | _ => .error "Invalid resourceId: must be a non-empty string"

/-- `validateAuditSignal` of `src/handlers/index.ts`. -/
def validateAuditSignal (sig : AuditSignalInput) : Except String Unit :=
  if failsRequiredString sig.timestamp then
    .error "Invalid audit signal: timestamp must be a non-empty string"
  else if failsRequiredString sig.action then
    .error "Invalid audit signal: action must be a non-empty string"
  else if failsRequiredString sig.principal then
    .error "Invalid audit signal: principal must be a non-empty string"
  else if failsRequiredString sig.resource then
    .error "Invalid audit signal: resource must be a non-empty string"
  else if failsRequiredString sig.outcome then
    .error "Invalid audit signal: outcome must be a non-empty string"
  else if failsOptionalObject sig.metadata then
    .error "Invalid audit signal: metadata must be an object if provided"
  else .ok ()

/-- `handleGovernanceRequest`: validate, then delegate to
`core.evaluateGovernance`.  The core's outcome is abstracted as
`coreResult`; the returned `Bool` records whether the core was invoked. -/
def handleGovernanceRequest (req : GovRequestInput)
    (coreResult : Except String GovernanceDecision) :
    Except String GovernanceDecision × Bool :=
  match validateGovernanceRequest req with
  | .error e => (.error e, false)
  | .ok _ => (coreResult, true)

/-- `handleRBACResolution`: validate the principal, then delegate to
`core.resolveRBAC`; the `Bool` records whether the core was invoked. -/
def handleRBACResolution (principal : JsValue)
    (coreResult : Except String RBACContext) :
    Except String RBACContext × Bool :=
  match validatePrincipal principal with
  | .error e => (.error e, false)
  | .ok _ => (coreResult, true)

/-- `handleFinOpsQuery`: validate the resource id, then delegate to
`core.getFinOpsSummary`; the `Bool` records whether the core was invoked. -/
def handleFinOpsQuery (resourceId : JsValue)
    (coreResult : Except String FinOpsSummary) :
    Except String FinOpsSummary × Bool :=
  match validateResourceId resourceId with
  | .error e => (.error e, false)
  | .ok _ => (coreResult, true)

/-- `handleAuditEmission`: validate the signal, then delegate to
`core.emitAuditSignal`; the `Bool` records whether the core was invoked. -/
def handleAuditEmission (sig : AuditSignalInput)
    (coreResult : Except String Unit) :
    Except String Unit × Bool :=
  match validateAuditSignal sig with
  | .error e => (.error e, false)
  | .ok _ => (coreResult, true)

/-! ## Concrete fixtures used by witnesses and counterexamples -/

/-- An environment in which every collaborator call succeeds, mirroring the
mock adapters of `tests/governance.test.ts` (costs 100 / 110, policy
allows). -/
def baseEnv : AdapterEnv where
  policyResp := .ok ⟨true, some ⟨true, ["Read access granted"], ["policy-1"]⟩, none⟩
  metricsResp := .ok ⟨true, some ⟨100, "USD"⟩, none⟩
  forecastResp := .ok ⟨true, some ⟨110, 17 / 20⟩, none⟩
  trackResp := .ok ⟨true, none, none⟩
  validateResp := .ok ⟨true, some ⟨true, []⟩, none⟩
  publishResp := .ok ⟨true, none, none⟩
  getConfig := fun _ => .ok ⟨false, none, some "Config not found"⟩
  nowMs := 1234
  nowIso := "2025-01-01T00:00:00.000Z"

/-- The sample governance request of the test suite. -/
def baseReq : GovernanceRequest :=
  ⟨"req-123", "resource-abc", "read", "user-123"⟩

/-- The decision `evaluateGovernance` produces on `baseEnv` / `baseReq`. -/
def baseDecision : GovernanceDecision where
  requestId := "req-123"
  allowed := true
  policyResults := ⟨true, ["policy-1"], ["Read access granted"]⟩
  costImpact := some ⟨"resource-abc", 100, 110, "within"⟩
  auditId := "audit-req-123-1234"

/-! ## C6: budget status rule of getFinOpsSummary -/

/-- C6: whenever both the cost-metrics and forecast calls succeed with
payloads, `getFinOpsSummary` returns `currentCost` = the metrics payload's
total cost, `forecast` = the forecast payload's projected cost, and a
`budgetStatus` computed from those two numbers alone by the first-match-wins
rule: "exceeded" if forecast > currentCost * 1.5, else "warning" if
forecast > currentCost * 1.2, else "within"; it is never taken from the
collaborator. -/
theorem getFinOpsSummary_budget_rule (env : AdapterEnv) (resourceId : String)
    (mr : AdapterResponse CostMetricsData) (md : CostMetricsData)
    (fr : AdapterResponse CostForecastData) (fd : CostForecastData)
    (hm : env.metricsResp = .ok mr) (hms : mr.success = true)
    (hmd : mr.data = some md)
    (hf : env.forecastResp = .ok fr) (hfs : fr.success = true)
    (hfd : fr.data = some fd) :
    getFinOpsSummary env resourceId = .ok
      { resourceId := resourceId
        currentCost := md.totalCost
        forecast := fd.projectedCost
        budgetStatus :=
          if fd.projectedCost > md.totalCost * (3 / 2) then "exceeded"
          else if fd.projectedCost > md.totalCost * (6 / 5) then "warning"
          else "within" } := by
  unfold getFinOpsSummary
  rw [hm, hf]
  simp only [hmd, hms, hfd, hfs, budgetStatusOf]

/-- Environment with costs 100 / 125 (warning band of the rule). -/
def warnEnv : AdapterEnv :=
  { baseEnv with forecastResp := .ok ⟨true, some ⟨125, 17 / 20⟩, none⟩ }

/-- Environment with costs 100 / 160 (exceeded band of the rule). -/
def exceedEnv : AdapterEnv :=
  { baseEnv with forecastResp := .ok ⟨true, some ⟨160, 17 / 20⟩, none⟩ }

/-- Witness for C6 at the three documented sample points: 100/110 within,
100/125 warning, 100/160 exceeded. -/
theorem getFinOpsSummary_budget_rule_witness :
    getFinOpsSummary baseEnv "resource-xyz" =
      .ok ⟨"resource-xyz", 100, 110, "within"⟩ ∧
    getFinOpsSummary warnEnv "resource-xyz" =
      .ok ⟨"resource-xyz", 100, 125, "warning"⟩ ∧
    getFinOpsSummary exceedEnv "resource-xyz" =
      .ok ⟨"resource-xyz", 100, 160, "exceeded"⟩ := by
  refine ⟨?_, ?_, ?_⟩
  · have h := getFinOpsSummary_budget_rule baseEnv "resource-xyz"
      ⟨true, some ⟨100, "USD"⟩, none⟩ ⟨100, "USD"⟩
      ⟨true, some ⟨110, 17 / 20⟩, none⟩ ⟨110, 17 / 20⟩ rfl rfl rfl rfl rfl rfl
    rw [h]; norm_num
  · have h := getFinOpsSummary_budget_rule warnEnv "resource-xyz"
      ⟨true, some ⟨100, "USD"⟩, none⟩ ⟨100, "USD"⟩
      ⟨true, some ⟨125, 17 / 20⟩, none⟩ ⟨125, 17 / 20⟩ rfl rfl rfl rfl rfl rfl
    rw [h]; norm_num
  · have h := getFinOpsSummary_budget_rule exceedEnv "resource-xyz"
      ⟨true, some ⟨100, "USD"⟩, none⟩ ⟨100, "USD"⟩
      ⟨true, some ⟨160, 17 / 20⟩, none⟩ ⟨160, 17 / 20⟩ rfl rfl rfl rfl rfl rfl
    rw [h]; norm_num

/-! ## Inversion of a successful evaluateGovernance run -/

/-- Inversion lemma: a run of `evaluateGovernance` that returns a decision
must have had a successful policy envelope with a payload, and every field
of the decision is determined by the request, that payload, the best-effort
cost summary and the clock. -/
theorem evaluateGovernance_ok_inv (env : AdapterEnv)
    (request : GovernanceRequest) (dec : GovernanceDecision)
    (h : (evaluateGovernance env request).result = .ok dec) :
    ∃ pr pd, env.policyResp = .ok pr ∧ pr.success = true ∧
      pr.data = some pd ∧
      dec = { requestId := request.requestId
              allowed := pd.allowed
              policyResults := ⟨pd.allowed, pd.appliedPolicies, pd.reasons⟩
              costImpact :=
                match getFinOpsSummary env request.resourceId with
                | .ok s => some s
                | .error _ => none
              auditId :=
                "audit-" ++ request.requestId ++ "-" ++ toString env.nowMs } := by
  simp only [evaluateGovernance] at h
  split at h
  · simp at h
  · rename_i pr heqpol
    split at h
    · simp at h
    · simp at h
    · rename_i pd hdata hsucc
      split at h
      · simp at h
      · rename_i tr htrack
        split at h
        · simp at h
        · rename_i u pubs hemit
          exact ⟨pr, pd, heqpol, hsucc, hdata, (Except.ok.inj h).symm⟩

/-! ## C1: the orchestrator never overrides the policy verdict -/

/-- C1: whenever `evaluateGovernance` returns a decision, its `allowed`
field equals `policyResults.allowed`, and both equal the `allowed` verdict
of the policy collaborator's payload — the orchestrator never overrides the
policy verdict. -/
theorem evaluateGovernance_never_overrides (env : AdapterEnv)
    (request : GovernanceRequest) (dec : GovernanceDecision)
    (h : (evaluateGovernance env request).result = .ok dec) :
    dec.allowed = dec.policyResults.allowed ∧
    ∃ pr pd, env.policyResp = .ok pr ∧ pr.data = some pd ∧
      dec.allowed = pd.allowed ∧ dec.policyResults.allowed = pd.allowed := by
  obtain ⟨pr, pd, hpol, _, hdata, hdec⟩ :=
    evaluateGovernance_ok_inv env request dec h
  subst hdec
  exact ⟨rfl, pr, pd, hpol, hdata, rfl, rfl⟩

/-- Witness for C1 at the concrete successful run `baseEnv` / `baseReq`. -/
theorem evaluateGovernance_never_overrides_witness :
    (evaluateGovernance baseEnv baseReq).result = .ok baseDecision ∧
    (baseDecision.allowed = baseDecision.policyResults.allowed ∧
     ∃ pr pd, baseEnv.policyResp = .ok pr ∧ pr.data = some pd ∧
       baseDecision.allowed = pd.allowed ∧
       baseDecision.policyResults.allowed = pd.allowed) := by
  have hrun : (evaluateGovernance baseEnv baseReq).result = .ok baseDecision := by
    simp only [evaluateGovernance, getFinOpsSummary, baseEnv, baseReq,
      baseDecision, budgetStatusOf, emitAuditSignal]
    norm_num
    rfl
  exact ⟨hrun, evaluateGovernance_never_overrides baseEnv baseReq baseDecision hrun⟩

/-! ## C9: audit id format -/

/-- C9: whenever `evaluateGovernance` succeeds, the decision's `auditId` is
exactly `"audit-" ++ requestId ++ "-" ++ <millisecond timestamp>`, hence
always matches the pattern `audit-<requestId>-<number>`. -/
theorem evaluateGovernance_auditId_format (env : AdapterEnv)
    (request : GovernanceRequest) (dec : GovernanceDecision)
    (h : (evaluateGovernance env request).result = .ok dec) :
    dec.auditId =
      "audit-" ++ request.requestId ++ "-" ++ toString env.nowMs := by
  obtain ⟨pr, pd, _, _, _, hdec⟩ := evaluateGovernance_ok_inv env request dec h
  subst hdec
  rfl

/-- Witness for C9 at the concrete run `baseEnv` / `baseReq`. -/
theorem evaluateGovernance_auditId_format_witness :
    (evaluateGovernance baseEnv baseReq).result = .ok baseDecision ∧
    baseDecision.auditId =
      "audit-" ++ baseReq.requestId ++ "-" ++ toString baseEnv.nowMs := by
  have hrun : (evaluateGovernance baseEnv baseReq).result = .ok baseDecision := by
    simp only [evaluateGovernance, getFinOpsSummary, baseEnv, baseReq,
      baseDecision, budgetStatusOf, emitAuditSignal]
    norm_num
    rfl
  exact ⟨hrun, evaluateGovernance_auditId_format baseEnv baseReq baseDecision hrun⟩

/-! ## C3: a policy collaborator failure is fatal -/

/-- C3: if the policy collaborator's envelope reports failure or carries no
payload, `evaluateGovernance` returns no decision: it fails with the
collaborator's error message (or the default "Policy evaluation failed"),
wrapped as "Governance evaluation failed: <cause>". -/
theorem evaluateGovernance_policy_failure_fatal (env : AdapterEnv)
    (request : GovernanceRequest) (pr : AdapterResponse PolicyData)
    (hp : env.policyResp = .ok pr)
    (hfail : pr.success = false ∨ pr.data = none) :
    (evaluateGovernance env request).result =
      .error ("Governance evaluation failed: " ++
        jsOrDefault pr.error "Policy evaluation failed") := by
  simp only [evaluateGovernance]
  split
  · rename_i e heq
    rw [hp] at heq
    exact absurd heq (by simp)
  · rename_i pr' heq
    rw [hp] at heq
    obtain rfl : pr = pr' := Except.ok.inj heq
    split
    · rfl
    · rfl
    · rename_i pd hdata hsucc
      rcases hfail with hs | hd
      · rw [hsucc] at hs; cases hs
      · rw [hdata] at hd; cases hd

/-- Witness for C3: a policy envelope with `success: false` and an error
message makes the whole evaluation fail with the wrapped message. -/
theorem evaluateGovernance_policy_failure_fatal_witness :
    (evaluateGovernance
        { baseEnv with policyResp := .ok ⟨false, none, some "policy engine down"⟩ }
        baseReq).result =
      .error "Governance evaluation failed: policy engine down" := by
  have h := evaluateGovernance_policy_failure_fatal
    { baseEnv with policyResp := .ok ⟨false, none, some "policy engine down"⟩ }
    baseReq ⟨false, none, some "policy engine down"⟩ rfl (Or.inl rfl)
  rw [h]
  rfl

/-! ## Behaviour of emitAuditSignal -/

/-- Helper: when the schema envelope succeeds with a `valid: true` payload
and the dashboard publish call resolves, `emitAuditSignal` succeeds and
publishes exactly one event, with severity "warning" iff the outcome is
"denied". -/
theorem emitAuditSignal_success (env : AdapterEnv) (signal : AuditSignal)
    (vr : AdapterResponse ValidationResult) (vd : ValidationResult)
    (hv : env.validateResp = .ok vr) (hvs : vr.success = true)
    (hvd : vr.data = some vd) (hvalid : vd.valid = true)
    (pu : AdapterResponse Unit) (hpub : env.publishResp = .ok pu) :
    emitAuditSignal env signal =
      (.ok (), [⟨"audit.signal",
        if signal.outcome = "denied" then "warning" else "info",
        signal.timestamp, signal⟩]) := by
  simp only [emitAuditSignal]
  split
  · rename_i e heq; rw [hv] at heq; exact absurd heq (by simp)
  · rename_i vr' heq; rw [hv] at heq
    obtain rfl := Except.ok.inj heq
    rw [if_neg]
    · split
      · rename_i e heq'; rw [hpub] at heq'; exact absurd heq' (by simp)
      · rfl
    · rw [hvd]
      simp [hvs, hvalid]

/-! ## C2: a failing cost summary is swallowed -/

/-- C2: if the cost-summary step fails for any reason while policy
evaluation, analytics tracking and audit emission all succeed,
`evaluateGovernance` still returns a decision and its `costImpact` is
absent — the cost failure is never propagated to the caller. -/
theorem evaluateGovernance_cost_failure_nonfatal (env : AdapterEnv)
    (request : GovernanceRequest)
    (pr : AdapterResponse PolicyData) (pd : PolicyData)
    (hp : env.policyResp = .ok pr) (hps : pr.success = true)
    (hpd : pr.data = some pd)
    (tr : AdapterResponse Unit) (ht : env.trackResp = .ok tr)
    (vr : AdapterResponse ValidationResult) (vd : ValidationResult)
    (hv : env.validateResp = .ok vr) (hvs : vr.success = true)
    (hvd : vr.data = some vd) (hvalid : vd.valid = true)
    (pu : AdapterResponse Unit) (hpub : env.publishResp = .ok pu)
    (e : String)
    (hcost : getFinOpsSummary env request.resourceId = .error e) :
    ∃ dec, (evaluateGovernance env request).result = .ok dec ∧
      dec.costImpact = none := by
  simp only [evaluateGovernance]
  split
  · rename_i e' heq; rw [hp] at heq; exact absurd heq (by simp)
  · rename_i pr' heq; rw [hp] at heq
    obtain rfl := Except.ok.inj heq
    split
    · rename_i hdata; rw [hpd] at hdata; cases hdata
    · rename_i hdata hsucc; rw [hps] at hsucc; cases hsucc
    · rename_i pd' hdata hsucc
      rw [hpd] at hdata
      obtain rfl := Option.some.inj hdata
      split
      · rename_i e' heq'; rw [ht] at heq'; exact absurd heq' (by simp)
      · split
        · rename_i e' pubs heq'
          rw [emitAuditSignal_success env _ vr vd hv hvs hvd hvalid pu hpub]
            at heq'
          exact absurd (Prod.mk.inj heq').1 (by simp)
        · refine ⟨_, rfl, ?_⟩
          simp only [hcost]

/-- Environment in which the cost-metrics envelope fails but everything
else succeeds. -/
def costFailEnv : AdapterEnv :=
  { baseEnv with metricsResp := .ok ⟨false, none, some "cost service down"⟩ }

/-- Witness for C2: with the cost-metrics collaborator down, evaluation
still succeeds and `costImpact` is absent. -/
theorem evaluateGovernance_cost_failure_nonfatal_witness :
    getFinOpsSummary costFailEnv baseReq.resourceId =
      .error "FinOps summary failed: cost service down" ∧
    ∃ dec, (evaluateGovernance costFailEnv baseReq).result = .ok dec ∧
      dec.costImpact = none := by
  refine ⟨by rfl, ?_⟩
  exact evaluateGovernance_cost_failure_nonfatal costFailEnv baseReq
    ⟨true, some ⟨true, ["Read access granted"], ["policy-1"]⟩, none⟩
    ⟨true, ["Read access granted"], ["policy-1"]⟩ rfl rfl rfl
    ⟨true, none, none⟩ rfl
    ⟨true, some ⟨true, []⟩, none⟩ ⟨true, []⟩ rfl rfl rfl rfl
    ⟨true, none, none⟩ rfl
    "FinOps summary failed: cost service down" (by rfl)

/-! ## C4: schema-invalid audit signals are rejected without publishing -/

/-- C4: if the schema collaborator's envelope reports failure or its
payload has `valid: false`, `emitAuditSignal` fails with
"Audit signal emission failed: Audit signal validation failed: <joined
messages>" and no event is handed to the dashboard collaborator. -/
theorem emitAuditSignal_validation_failure (env : AdapterEnv)
    (signal : AuditSignal) (vr : AdapterResponse ValidationResult)
    (hv : env.validateResp = .ok vr)
    (hfail : vr.success = false ∨
      ∃ vd, vr.data = some vd ∧ vd.valid = false) :
    emitAuditSignal env signal =
      (.error ("Audit signal emission failed: Audit signal validation failed: " ++
        String.intercalate ", "
          (((vr.data.map ValidationResult.errors).getD []).map
            ValidationErrorItem.message)), []) := by
  simp only [emitAuditSignal]
  split
  · rename_i e heq; rw [hv] at heq; exact absurd heq (by simp)
  · rename_i vr' heq; rw [hv] at heq
    obtain rfl := Except.ok.inj heq
    rw [if_pos]
    rcases hfail with hs | ⟨vd, hd, hval⟩
    · exact Or.inl hs
    · right; rw [hd]; simpa using hval

/-- Environment whose schema validation reports `valid: false` with two
error messages. -/
def invalidSignalEnv : AdapterEnv :=
  { baseEnv with validateResp := .ok ⟨true,
      some ⟨false, [⟨"/outcome", "outcome must be allowed or denied"⟩,
                    ⟨"/timestamp", "timestamp must be ISO-8601"⟩]⟩, none⟩ }

/-- A standalone audit signal used for the C4 witness. -/
def sampleSignal : AuditSignal :=
  ⟨"2025-01-01T00:00:00.000Z", "read", "user-123", "resource-abc",
    "granted", none⟩

/-- Witness for C4: the joined validation messages surface in the wrapped
error and the published-event list is empty (the dashboard collaborator is
never called). -/
theorem emitAuditSignal_validation_failure_witness :
    emitAuditSignal invalidSignalEnv sampleSignal =
      (.error ("Audit signal emission failed: Audit signal validation failed: " ++
        "outcome must be allowed or denied, timestamp must be ISO-8601"),
       []) := by
  have h := emitAuditSignal_validation_failure invalidSignalEnv sampleSignal
    ⟨true, some ⟨false, [⟨"/outcome", "outcome must be allowed or denied"⟩,
                         ⟨"/timestamp", "timestamp must be ISO-8601"⟩]⟩, none⟩
    rfl
    (Or.inr ⟨⟨false, [⟨"/outcome", "outcome must be allowed or denied"⟩,
                      ⟨"/timestamp", "timestamp must be ISO-8601"⟩]⟩, rfl, rfl⟩)
  rw [h]
  rfl

/-! ## C8: unknown principals resolve to an empty context -/

/-- C8: if the roles configuration lookup resolves but reports failure or
returns no value, `resolveRBAC` does not raise an error: it returns the
context with that principal, empty roles and empty permissions. -/
theorem resolveRBAC_unknown_principal (env : AdapterEnv) (principal : String)
    (rc : AdapterResponse ConfigData)
    (h : env.getConfig ("rbac.roles." ++ principal) = .ok rc)
    (hfail : rc.success = false ∨ rc.data = none) :
    resolveRBAC env principal = .ok ⟨principal, [], [], none⟩ := by
  simp only [resolveRBAC]
  split
  · rename_i e heq; rw [h] at heq; exact absurd heq (by simp)
  · rename_i rc' heq; rw [h] at heq
    obtain rfl := Except.ok.inj heq
    split
    · rename_i d hdata hsucc
      rcases hfail with hs | hd
      · rw [hsucc] at hs; cases hs
      · rw [hdata] at hd; cases hd
    · rfl

/-- Witness for C8: an unknown principal under `baseEnv` (whose config
lookups all report "Config not found"). -/
theorem resolveRBAC_unknown_principal_witness :
    resolveRBAC baseEnv "unknown-user" =
      .ok ⟨"unknown-user", [], [], none⟩ := by
  exact resolveRBAC_unknown_principal baseEnv "unknown-user"
    ⟨false, none, some "Config not found"⟩ rfl (Or.inl rfl)

/-! ## C7: permissions are the deduplicated union of per-role lookups -/

/-- `jsSetDedup` over any accumulator keeps the result duplicate-free. -/
theorem jsSetDedup_aux_nodup (xs : List String) (acc : List String)
    (hacc : acc.Nodup) :
    (xs.foldl (fun a x => if x ∈ a then a else a ++ [x]) acc).Nodup := by
  induction xs generalizing acc with
  | nil => simpa
  | cons x xs ih =>
    simp only [List.foldl_cons]
    by_cases hx : x ∈ acc
    · rw [if_pos hx]; exact ih acc hacc
    · rw [if_neg hx]
      refine ih _ ?_
      simp [List.nodup_append, hacc, hx]

/-- Membership of the `jsSetDedup` fold: an element is kept iff it was in
the accumulator or in the input. -/
theorem jsSetDedup_aux_mem (xs : List String) (acc : List String)
    (p : String) :
    p ∈ xs.foldl (fun a x => if x ∈ a then a else a ++ [x]) acc ↔
      p ∈ acc ∨ p ∈ xs := by
  induction xs generalizing acc with
  | nil => simp
  | cons x xs ih =>
    simp only [List.foldl_cons]
    by_cases hx : x ∈ acc
    · rw [if_pos hx, ih]
      constructor
      · rintro (hp | hp)
        · exact Or.inl hp
        · exact Or.inr (List.mem_cons_of_mem x hp)
      · rintro (hp | hp)
        · exact Or.inl hp
        · rcases List.mem_cons.mp hp with rfl | hp
          · exact Or.inl hx
          · exact Or.inr hp
    · rw [if_neg hx, ih]
      simp only [List.mem_append, List.mem_singleton, List.mem_cons]
      tauto

/-- `jsSetDedup` returns a duplicate-free list. -/
theorem jsSetDedup_nodup (xs : List String) : (jsSetDedup xs).Nodup :=
  jsSetDedup_aux_nodup xs [] List.nodup_nil

/-- `jsSetDedup` keeps exactly the elements of its input. -/
theorem mem_jsSetDedup (xs : List String) (p : String) :
    p ∈ jsSetDedup xs ↔ p ∈ xs := by
  simpa [jsSetDedup] using jsSetDedup_aux_mem xs [] p

/-- Membership in the flattened permission sets collected for a role list:
exactly the permissions granted by some role of the list. -/
theorem collectPermissionSets_mem (env : AdapterEnv) (roles : List String)
    (sets : List (List String))
    (h : collectPermissionSets env roles = .ok sets) (p : String) :
    p ∈ sets.flatten ↔
      ∃ role ∈ roles, ∃ perms,
        rolePermissions env role = .ok perms ∧ p ∈ perms := by
  induction roles generalizing sets with
  | nil =>
    simp only [collectPermissionSets] at h
    obtain rfl := Except.ok.inj h
    simp
  | cons r rs ih =>
    simp only [collectPermissionSets] at h
    split at h
    · exact absurd h (by simp)
    · rename_i perms hr
      split at h
      · exact absurd h (by simp)
      · rename_i tail hrest
        obtain rfl := Except.ok.inj h
        simp only [List.flatten_cons, List.mem_append]
        rw [ih tail hrest]
        constructor
        · rintro (hp | ⟨role, hrole, perms', hperms', hp⟩)
          · exact ⟨r, List.mem_cons_self r rs, perms, hr, hp⟩
          · exact ⟨role, List.mem_cons_of_mem r hrole, perms', hperms', hp⟩
        · rintro ⟨role, hrole, perms', hperms', hp⟩
          rcases List.mem_cons.mp hrole with rfl | hrole
          · rw [hr] at hperms'
            obtain rfl := Except.ok.inj hperms'
            exact Or.inl hp
          · exact Or.inr ⟨role, hrole, perms', hperms', hp⟩

/-- C7: whenever `resolveRBAC` returns a context, its permissions are
duplicate-free and contain exactly the permissions granted by some resolved
role; empty roles yield empty permissions; and a role whose permission
lookup resolves with a failed envelope or no payload contributes the empty
set instead of failing the operation. -/
theorem resolveRBAC_permissions_dedup_union (env : AdapterEnv)
    (principal : String) (ctx : RBACContext)
    (h : resolveRBAC env principal = .ok ctx) :
    ctx.permissions.Nodup ∧
    (∀ p, p ∈ ctx.permissions ↔
      ∃ role ∈ ctx.roles, ∃ perms,
        rolePermissions env role = .ok perms ∧ p ∈ perms) ∧
    (ctx.roles = [] → ctx.permissions = []) ∧
    (∀ role pc, env.getConfig ("rbac.permissions." ++ role) = .ok pc →
      pc.success = false ∨ pc.data = none →
      rolePermissions env role = .ok []) := by
  have hdegrade : ∀ role pc,
      env.getConfig ("rbac.permissions." ++ role) = .ok pc →
      pc.success = false ∨ pc.data = none →
      rolePermissions env role = .ok [] := by
    intro role pc hpc hf
    simp only [rolePermissions]
    split
    · rename_i e heq; rw [hpc] at heq; exact absurd heq (by simp)
    · rename_i pc' heq; rw [hpc] at heq
      obtain rfl := Except.ok.inj heq
      split
      · rename_i d hdata hsucc
        rcases hf with hs | hd
        · rw [hsucc] at hs; cases hs
        · rw [hdata] at hd; cases hd
      · rfl
  simp only [resolveRBAC] at h
  split at h
  · exact absurd h (by simp)
  · rename_i rc heq
    split at h
    · rename_i d hdata hsucc
      split at h
      · exact absurd h (by simp)
      · rename_i sets hsets
        obtain rfl := Except.ok.inj h
        refine ⟨jsSetDedup_nodup _, ?_, ?_, hdegrade⟩
        · intro p
          rw [mem_jsSetDedup]
          exact collectPermissionSets_mem env _ sets hsets p
        · intro hroles
          simp only at hroles
          rw [hroles] at hsets
          simp only [collectPermissionSets] at hsets
          obtain rfl := Except.ok.inj hsets
          rfl
    · obtain rfl := Except.ok.inj h
      refine ⟨List.nodup_nil, ?_, fun _ => rfl, hdegrade⟩
      intro p
      simp

/-- Environment mirroring the RBAC mock of the test suite: `user-123` has
roles admin and developer, with overlapping permission grants. -/
def rbacEnv : AdapterEnv :=
  { baseEnv with getConfig := fun key =>
      if key = "rbac.roles.user-123" then
        Except.ok ⟨true, some ⟨some ["admin", "developer"], none⟩, none⟩
      else if key = "rbac.permissions.admin" then
        Except.ok ⟨true, some ⟨none, some ["read", "write", "delete"]⟩, none⟩
      else if key = "rbac.permissions.developer" then
        Except.ok ⟨true, some ⟨none, some ["read", "write"]⟩, none⟩
      else Except.ok ⟨false, none, some "Config not found"⟩ }

/-- The context `resolveRBAC` produces on `rbacEnv` for `user-123`: "read"
and "write" are granted twice but appear once. -/
def rbacCtx : RBACContext :=
  ⟨"user-123", ["admin", "developer"], ["read", "write", "delete"], none⟩

/-- Witness for C7 at the concrete two-role principal: the permissions are
duplicate-free and "read" (granted by both roles) is reachable through the
per-role lookups. -/
theorem resolveRBAC_permissions_dedup_union_witness :
    resolveRBAC rbacEnv "user-123" = .ok rbacCtx ∧
    rbacCtx.permissions.Nodup ∧
    ("read" ∈ rbacCtx.permissions ↔
      ∃ role ∈ rbacCtx.roles, ∃ perms,
        rolePermissions rbacEnv role = .ok perms ∧ "read" ∈ perms) := by
  have hrun : resolveRBAC rbacEnv "user-123" = .ok rbacCtx := by rfl
  have h := resolveRBAC_permissions_dedup_union rbacEnv "user-123" rbacCtx hrun
  exact ⟨hrun, h.1, h.2.1 "read"⟩

/-! ## C5: which collaborator failures are fatal -/

/-- Environment whose analytics `track` envelope reports failure while all
other collaborators succeed. -/
def trackFailEnv : AdapterEnv :=
  { baseEnv with trackResp := .ok ⟨false, none, some "analytics unavailable"⟩ }

/-- Environment whose dashboard `publishEvent` envelope reports failure
while all other collaborators succeed. -/
def publishFailEnv : AdapterEnv :=
  { baseEnv with publishResp := .ok ⟨false, none, some "dashboard unavailable"⟩ }

/-- C5 counterexample: a `success: false` envelope from the analytics
`track` call does not fail `evaluateGovernance` (the run still returns the
full decision), and a `success: false` envelope from the dashboard
`publishEvent` call does not fail `emitAuditSignal` — contradicting the
claim that every non-cost collaborator envelope failure is fatal. -/
theorem collaborator_envelope_failure_not_fatal_cex :
    (evaluateGovernance trackFailEnv baseReq).result = .ok baseDecision ∧
    (emitAuditSignal publishFailEnv sampleSignal).1 = .ok () := by
  constructor
  · simp only [evaluateGovernance, getFinOpsSummary, trackFailEnv, baseEnv,
      baseReq, baseDecision, budgetStatusOf, emitAuditSignal]
    norm_num
    rfl
  · rfl

/-- C5 (amended): a thrown exception from any collaborator call is fatal
and wrapped (shown here for analytics `track` and dashboard
`publishEvent`), and an envelope failure of an inspected collaborator is
fatal (shown for cost metrics inside `getFinOpsSummary`); but the `track`
and `publishEvent` result envelopes are awaited without being inspected, so
replacing their resolved envelope by any other resolved envelope leaves the
operation's outcome unchanged. -/
theorem collaborator_failure_fatality_partition (env : AdapterEnv)
    (request : GovernanceRequest) (signal : AuditSignal) :
    (∀ pr pd e, env.policyResp = .ok pr → pr.success = true →
      pr.data = some pd → env.trackResp = .error e →
      (evaluateGovernance env request).result =
        .error ("Governance evaluation failed: " ++ e)) ∧
    (∀ vr vd e, env.validateResp = .ok vr → vr.success = true →
      vr.data = some vd → vd.valid = true → env.publishResp = .error e →
      (emitAuditSignal env signal).1 =
        .error ("Audit signal emission failed: " ++ e)) ∧
    (∀ tr tr' : AdapterResponse Unit,
      (evaluateGovernance { env with trackResp := .ok tr } request).result =
        (evaluateGovernance { env with trackResp := .ok tr' } request).result) ∧
    (∀ pu pu' : AdapterResponse Unit,
      (emitAuditSignal { env with publishResp := .ok pu } signal).1 =
        (emitAuditSignal { env with publishResp := .ok pu' } signal).1) ∧
    (∀ mr, env.metricsResp = .ok mr → mr.success = false →
      ∃ msg, getFinOpsSummary env request.resourceId = .error msg) := by
  refine ⟨?_, ?_, ?_, ?_, ?_⟩
  · intro pr pd e hp hps hpd ht
    simp only [evaluateGovernance]
    split
    · rename_i e' heq; rw [hp] at heq; exact absurd heq (by simp)
    · rename_i pr' heq; rw [hp] at heq
      obtain rfl := Except.ok.inj heq
      split
      · rename_i hdata; rw [hpd] at hdata; cases hdata
      · rename_i hdata hsucc; rw [hps] at hsucc; cases hsucc
      · split
        · rename_i e' heq'; rw [ht] at heq'
          obtain rfl := Except.error.inj heq'
          rfl
        · rename_i tr heq'; rw [ht] at heq'; exact absurd heq' (by simp)
  · intro vr vd e hv hvs hvd hvalid hpub
    simp only [emitAuditSignal]
    split
    · rename_i e' heq; rw [hv] at heq; exact absurd heq (by simp)
    · rename_i vr' heq; rw [hv] at heq
      obtain rfl := Except.ok.inj heq
      rw [if_neg]
      · split
        · rename_i e' heq'; rw [hpub] at heq'
          obtain rfl := Except.error.inj heq'
          rfl
        · rename_i u heq'; rw [hpub] at heq'; exact absurd heq' (by simp)
      · rw [hvd]
        simp [hvs, hvalid]
  · intro tr tr'
    rfl
  · intro pu pu'
    rfl
  · intro mr hm hms
    simp only [getFinOpsSummary]
    split
    · rename_i e heq; rw [hm] at heq; exact absurd heq (by simp)
    · rename_i mr' heq; rw [hm] at heq
      obtain rfl := Except.ok.inj heq
      split
      · exact ⟨_, rfl⟩
      · split
        · exact ⟨_, rfl⟩
        · exact ⟨_, rfl⟩
        · rename_i md hdata hsucc; rw [hms] at hsucc; cases hsucc

/-- Witness for the amended C5: a thrown `track` call fails the evaluation
with the wrapped message, a thrown `publishEvent` call fails the emission
with the wrapped message, and a failed cost-metrics envelope fails the
FinOps summary. -/
theorem collaborator_failure_fatality_partition_witness :
    (evaluateGovernance { baseEnv with trackResp := .error "track blew up" }
        baseReq).result =
      .error "Governance evaluation failed: track blew up" ∧
    (emitAuditSignal { baseEnv with publishResp := .error "publish blew up" }
        sampleSignal).1 =
      .error "Audit signal emission failed: publish blew up" ∧
    ∃ msg, getFinOpsSummary costFailEnv baseReq.resourceId = .error msg := by
  have h₁ := (collaborator_failure_fatality_partition
    { baseEnv with trackResp := .error "track blew up" } baseReq
    sampleSignal).1
    ⟨true, some ⟨true, ["Read access granted"], ["policy-1"]⟩, none⟩
    ⟨true, ["Read access granted"], ["policy-1"]⟩ "track blew up"
    rfl rfl rfl rfl
  have h₂ := (collaborator_failure_fatality_partition
    { baseEnv with publishResp := .error "publish blew up" } baseReq
    sampleSignal).2.1
    ⟨true, some ⟨true, []⟩, none⟩ ⟨true, []⟩ "publish blew up"
    rfl rfl rfl rfl rfl
  have h₃ := (collaborator_failure_fatality_partition costFailEnv baseReq
    sampleSignal).2.2.2.2
    ⟨false, none, some "cost service down"⟩ rfl rfl
  exact ⟨h₁, h₂, h₃⟩

/-! ## C10: whitespace-only strings are rejected at the boundary -/

/-- A string whose trim is empty fails the required-string check (this
covers both the empty string, caught by the falsiness clause, and
whitespace-only strings, caught by the trim clause). -/
theorem failsRequiredString_of_trim {s : String} (h : jsTrim s = "") :
    failsRequiredString (.string s) = true := by
  simp [failsRequiredString, h]

/-- A string with a non-empty trim passes the required-string check. -/
theorem failsRequiredString_false_of_trim {g : String} (h : jsTrim g ≠ "") :
    failsRequiredString (.string g) = false := by
  have hg : g ≠ "" := by
    intro he
    subst he
    exact h rfl
  simp [failsRequiredString, hg, h]

/-- C10: for each of the four handlers, a required string field consisting
entirely of whitespace (trim = "") is rejected with the same field-naming
validation error as the empty string, and the core operation is never
invoked (the `false` flag).  Shown for every required field: requestId /
resourceId / action / principal of `handleGovernanceRequest`, the principal
of `handleRBACResolution`, the resourceId of `handleFinOpsQuery`, and
timestamp / action / principal / resource / outcome of
`handleAuditEmission`. -/
theorem handlers_reject_whitespace_only (s : String) (hs : jsTrim s = "")
    (rid res act pr ts out : String)
    (hrid : jsTrim rid ≠ "") (hres : jsTrim res ≠ "")
    (hact : jsTrim act ≠ "") (hpr : jsTrim pr ≠ "")
    (hts : jsTrim ts ≠ "") (hout : jsTrim out ≠ "")
    (dres : Except String GovernanceDecision)
    (rres : Except String RBACContext)
    (fres : Except String FinOpsSummary)
    (ares : Except String Unit) :
    (handleGovernanceRequest
        ⟨.string s, .string res, .string act, .string pr, .undef⟩ dres =
        (.error "Invalid request: requestId must be a non-empty string", false) ∧
     handleGovernanceRequest
        ⟨.string "", .string res, .string act, .string pr, .undef⟩ dres =
        (.error "Invalid request: requestId must be a non-empty string", false)) ∧
    (handleGovernanceRequest
        ⟨.string rid, .string s, .string act, .string pr, .undef⟩ dres =
        (.error "Invalid request: resourceId must be a non-empty string", false) ∧
     handleGovernanceRequest
        ⟨.string rid, .string "", .string act, .string pr, .undef⟩ dres =
        (.error "Invalid request: resourceId must be a non-empty string", false)) ∧
    (handleGovernanceRequest
        ⟨.string rid, .string res, .string s, .string pr, .undef⟩ dres =
        (.error "Invalid request: action must be a non-empty string", false) ∧
     handleGovernanceRequest
        ⟨.string rid, .string res, .string "", .string pr, .undef⟩ dres =
        (.error "Invalid request: action must be a non-empty string", false)) ∧
    (handleGovernanceRequest
        ⟨.string rid, .string res, .string act, .string s, .undef⟩ dres =
        (.error "Invalid request: principal must be a non-empty string", false) ∧
     handleGovernanceRequest
        ⟨.string rid, .string res, .string act, .string "", .undef⟩ dres =
        (.error "Invalid request: principal must be a non-empty string", false)) ∧
    (handleRBACResolution (.string s) rres =
        (.error "Invalid principal: must be a non-empty string", false) ∧
     handleRBACResolution (.string "") rres =
        (.error "Invalid principal: must be a non-empty string", false)) ∧
    (handleFinOpsQuery (.string s) fres =
        (.error "Invalid resourceId: must be a non-empty string", false) ∧
     handleFinOpsQuery (.string "") fres =
        (.error "Invalid resourceId: must be a non-empty string", false)) ∧
    (handleAuditEmission
        ⟨.string s, .string act, .string pr, .string res, .string out, .undef⟩ ares =
        (.error "Invalid audit signal: timestamp must be a non-empty string", false) ∧
     handleAuditEmission
        ⟨.string "", .string act, .string pr, .string res, .string out, .undef⟩ ares =
        (.error "Invalid audit signal: timestamp must be a non-empty string", false)) ∧
    (handleAuditEmission
        ⟨.string ts, .string s, .string pr, .string res, .string out, .undef⟩ ares =
        (.error "Invalid audit signal: action must be a non-empty string", false) ∧
     handleAuditEmission
        ⟨.string ts, .string "", .string pr, .string res, .string out, .undef⟩ ares =
        (.error "Invalid audit signal: action must be a non-empty string", false)) ∧
    (handleAuditEmission
        ⟨.string ts, .string act, .string s, .string res, .string out, .undef⟩ ares =
        (.error "Invalid audit signal: principal must be a non-empty string", false) ∧
     handleAuditEmission
        ⟨.string ts, .string act, .string "", .string res, .string out, .undef⟩ ares =
        (.error "Invalid audit signal: principal must be a non-empty string", false)) ∧
    (handleAuditEmission
        ⟨.string ts, .string act, .string pr, .string s, .string out, .undef⟩ ares =
        (.error "Invalid audit signal: resource must be a non-empty string", false) ∧
     handleAuditEmission
        ⟨.string ts, .string act, .string pr, .string "", .string out, .undef⟩ ares =
        (.error "Invalid audit signal: resource must be a non-empty string", false)) ∧
    (handleAuditEmission
        ⟨.string ts, .string act, .string pr, .string res, .string s, .undef⟩ ares =
        (.error "Invalid audit signal: outcome must be a non-empty string", false) ∧
     handleAuditEmission
        ⟨.string ts, .string act, .string pr, .string res, .string "", .undef⟩ ares =
        (.error "Invalid audit signal: outcome must be a non-empty string", false)) := by
  have hws := failsRequiredString_of_trim hs
  have hemp := failsRequiredString_of_trim (show jsTrim "" = "" from rfl)
  have h₁ := failsRequiredString_false_of_trim hrid
  have h₂ := failsRequiredString_false_of_trim hres
  have h₃ := failsRequiredString_false_of_trim hact
  have h₄ := failsRequiredString_false_of_trim hpr
  have h₅ := failsRequiredString_false_of_trim hts
  have h₆ := failsRequiredString_false_of_trim hout
  have hempT : jsTrim "" = "" := rfl
  refine ⟨⟨?_, ?_⟩, ⟨?_, ?_⟩, ⟨?_, ?_⟩, ⟨?_, ?_⟩, ⟨?_, ?_⟩, ⟨?_, ?_⟩,
    ⟨?_, ?_⟩, ⟨?_, ?_⟩, ⟨?_, ?_⟩, ⟨?_, ?_⟩, ⟨?_, ?_⟩⟩ <;>
    simp [handleGovernanceRequest, handleRBACResolution, handleFinOpsQuery,
      handleAuditEmission, validateGovernanceRequest, validatePrincipal,
      validateResourceId, validateAuditSignal, hws, hemp, h₁, h₂, h₃, h₄,
      h₅, h₆, hs, hempT]

/-- Witness for C10: a single-space requestId is rejected exactly like the
empty one, and a single-space principal for the RBAC handler too; the core
is never invoked. -/
theorem handlers_reject_whitespace_only_witness :
    jsTrim " " = "" ∧ jsTrim "x" ≠ "" ∧
    handleGovernanceRequest
      ⟨.string " ", .string "x", .string "x", .string "x", .undef⟩
      (.error "core untouched") =
      (.error "Invalid request: requestId must be a non-empty string", false) ∧
    handleRBACResolution (.string " ") (.error "core untouched") =
      (.error "Invalid principal: must be a non-empty string", false) := by
  have h := handlers_reject_whitespace_only " " (by decide) "x" "x" "x" "x" "x" "x"
    (by decide) (by decide) (by decide) (by decide) (by decide) (by decide)
    (.error "core untouched") (.error "core untouched")
    (.error "core untouched") (.error "core untouched")
  exact ⟨by decide, by decide, h.1.1, h.2.2.2.2.1.1⟩
